import Mathlib

/-!
# Verification of the Agribot retrieval-and-routing core

Shallow embedding of `rag/retriever_vector.py`, `rag/retriever_graph.py` and
`rag/router.py`.  Pure Python functions become Lean functions; calls into the
external graph / vector / generation collaborators are modelled as fields of
explicit store records returning `Except Unit α` (an exception raised by a
collaborator call is `.error ()`); Python code that may raise on its own
(`hits[best_j]` with `best_j = None`) is modelled with `Option`.
Python floats are modelled as `ℚ` (exact arithmetic); numeric values stored in
the graph are modelled as `ℤ`.
-/

/- Batteries marks the `Rat` field operations `@[irreducible]`, which blocks
`decide`-style evaluation of the reranker on concrete inputs.  Reducibility
attributes do not affect the kernel; this only lets the elaborator evaluate. -/
set_option allowUnsafeReducibility true
attribute [semireducible] Rat.mul Rat.add Rat.sub Rat.div Rat.inv Rat.neg

namespace Agrigpt

/-! ## String primitives

Lean core's `String.split`, `String.trim`, `String.toLower` … are defined by
well-founded recursion on byte positions and do not reduce in the kernel, so
the Python string operations used by the source are modelled structurally over
`String.data`. -/

/-- Python `str.lower()`.  `Char.toLower` lowers ASCII letters only; every
cased character appearing in the source's keyword tables is ASCII (Bangla has
no case), so this agrees with Python on all inputs the code compares. -/
def lowerStr (s : String) : String := ⟨s.data.map Char.toLower⟩

/-- Strip the characters satisfying `p` from both ends of a string
(Python `str.strip(chars)`). -/
def trimChars (p : Char → Bool) (s : String) : String :=
  ⟨((s.data.dropWhile p).reverse.dropWhile p).reverse⟩

/-- Python `str.strip()` (no argument): strip whitespace from both ends. -/
def trimStr (s : String) : String := trimChars Char.isWhitespace s

def isPrefixList : List Char → List Char → Bool
  | [], _ => true
  | _ :: _, [] => false
  | a :: as, b :: bs => a == b && isPrefixList as bs

def isSubList (pat : List Char) : List Char → Bool
  | [] => pat.isEmpty
  | c :: cs => isPrefixList pat (c :: cs) || isSubList pat cs

/-- Python `pat in s`: contiguous-substring containment. -/
def strContains (s pat : String) : Bool := isSubList pat.data s.data

/-- Python `str.split()` with no argument: split on runs of whitespace,
dropping empty pieces. -/
def pySplitAux : List Char → List Char → List String
  | [], acc => if acc.isEmpty then [] else [⟨acc.reverse⟩]
  | c :: cs, acc =>
      if c.isWhitespace then
        if acc.isEmpty then pySplitAux cs [] else ⟨acc.reverse⟩ :: pySplitAux cs []
      else pySplitAux cs (c :: acc)

def pySplit (s : String) : List String := pySplitAux s.data []

/-! ## Vector side: `rag/retriever_vector.py` -/

/-- A row returned by the pgvector nearest-neighbour query in `fetch_knn`
(the columns of the SQL `SELECT`). -/
structure Hit where
  chunk_id : String
  doc_id : String
  source : String
  language : String
  section_path : String
  text : String
  cosine_sim : ℚ
deriving Repr, DecidableEq, Inhabited

/-- `set(h["text"].split())`: whitespace tokenization with set semantics. -/
def tokenSet (s : String) : Finset String := (pySplit s).toFinset

/-- `jaccard(a, b)` from `mmr_rerank`: `len(a & b) / (len(a | b) or 1)`. -/
def jaccard (a b : Finset String) : ℚ :=
  let inter : ℕ := (a ∩ b).card
  let uni : ℕ := (a ∪ b).card
  (inter : ℚ) / (if uni = 0 then 1 else (uni : ℚ))

/-- Python `max(xs, default=0.0)`: maximum of a list, `0` when empty. -/
def listMax0 : List ℚ → ℚ
  | [] => 0
  | x :: xs => xs.foldl max x

/-- `red = max((jaccard(toks[j], toks[si]) for si in selected_idx), default=0.0)`. -/
def redundancy (toks : List (Finset String)) (j : ℕ) (selIdx : List ℕ) : ℚ :=
  listMax0 (selIdx.map (fun si => jaccard (toks.getD j ∅) (toks.getD si ∅)))

/-- The inner `for j, h in enumerate(hits)` loop of `mmr_rerank`, computing the
running `(best_j, best_score)` pair.  `j0` is the index of the head of `l`. -/
def bestFold (selIdx : List ℕ) (lam : ℚ) (toks : List (Finset String)) :
    List Hit → ℕ → Option ℕ × ℚ → Option ℕ × ℚ
  | [], _, acc => acc
  | h :: rest, j0, acc =>
      let acc' :=
        if j0 ∈ selIdx then acc
        else
          let score := lam * h.cosine_sim - (1 - lam) * redundancy toks j0 selIdx
          if score > acc.2 then (some j0, score) else acc
      bestFold selIdx lam toks rest (j0 + 1) acc'

/-- One pass of the selection loop body: start from `best_j, best_score = None, -1e9`
and scan all candidates. -/
def bestCandidate (hits : List Hit) (toks : List (Finset String)) (selIdx : List ℕ)
    (lam : ℚ) : Option ℕ :=
  (bestFold selIdx lam toks hits 0 (none, -(1000000000 : ℚ))).1

/-- `int(np.argmax(xs))`: index of the first occurrence of the maximum.
(`mmr_rerank` only calls it on a non-empty list; the value on `[]` is irrelevant.) -/
def argmaxAux : List ℚ → ℕ → ℕ × ℚ → ℕ × ℚ
  | [], _, best => best
  | x :: xs, i, best => argmaxAux xs (i + 1) (if x > best.2 then (i, x) else best)

def argmaxIdx : List ℚ → ℕ
  | [] => 0
  | x :: xs => (argmaxAux xs 1 (0, x)).1

/-- The `while len(selected) < top_k and len(selected) < len(hits)` loop of
`mmr_rerank`.  If no candidate scores above the `-1e9` sentinel, `best_j`
stays `None` and `hits[best_j]` raises a `TypeError`: modelled as `none`.

The loop appends exactly one item per iteration and runs only while
`selected.length < top_k`, so it performs at most `top_k - selected.length`
iterations; `fuel` is a structural-recursion bound, and every call below
passes `fuel = top_k ≥ top_k - selected.length`, so the `some _, 0` branch is
unreachable and the function agrees with the unbounded Python loop on every
input. -/
def mmrLoop (hits : List Hit) (toks : List (Finset String)) (lam : ℚ) (top_k : ℕ)
    (fuel : ℕ) (selected : List Hit) (selIdx : List ℕ) : Option (List Hit) :=
  if selected.length < top_k ∧ selected.length < hits.length then
    match bestCandidate hits toks selIdx lam with
    | none => none
    | some j =>
        match fuel with
        | 0 => none
        | fuel' + 1 =>
            mmrLoop hits toks lam top_k fuel'
              (selected ++ [hits.getD j default]) (selIdx ++ [j])
  else
    some selected

/-- `mmr_rerank(qvec, hits, lambda_mult=0.7, top_k=5)`.  `qvec` is accepted and
ignored, exactly as in the source. -/
def mmr_rerank (_qvec : List ℚ) (hits : List Hit) (lambda_mult : ℚ) (top_k : ℕ) :
    Option (List Hit) :=
  if hits.length ≤ top_k then some hits
  else
    let toks := hits.map (fun h => tokenSet h.text)
    let idx := argmaxIdx (hits.map (fun h => h.cosine_sim))
    mmrLoop hits toks lambda_mult top_k top_k [hits.getD idx default] [idx]

/-! ## Graph side: `rag/retriever_graph.py`

The Neo4j collaborator is abstract: a `GraphStore` carries one function per
Cypher query run through `_run`, returning `Except Unit rows` (`.error ()` is
a raised driver/index exception).  A concrete `Graph` value and the semantics
of each query over it are defined further below. -/

/-- Row of the crop-resolution queries: `RETURN c.id, c.name_bn, c.name_en, c.slug`. -/
structure CropRow where
  id : Option String
  name_bn : Option String
  name_en : Option String
  slug : Option String
deriving Repr, DecidableEq, Inhabited

/-- Row of `crop_seasons`. -/
structure SeasonRow where
  season_id : Option String
  season_name : Option String
deriving Repr, DecidableEq, Inhabited

/-- Row of `crop_locations`. -/
structure LocRow where
  location_id : Option String
  location_name : Option String
  season : Option String
  transplant : Option String
  harvest : Option String
  production : Option ℤ
  avg_temp_c : Option ℤ
  avg_humidity : Option ℤ
deriving Repr, DecidableEq, Inhabited

/-- Row of `crop_climate`. -/
structure ClimateRow where
  min_temp_c : Option ℤ
  max_temp_c : Option ℤ
  min_rh : Option ℤ
  max_rh : Option ℤ
deriving Repr, DecidableEq, Inhabited

/-- Row of `crop_diseases`. -/
structure DiseaseRow where
  disease_id : Option String
  name_bn : Option String
  name_en : Option String
  notes : Option String
deriving Repr, DecidableEq, Inhabited

/-- The graph collaborator, one field per Cypher query of the source file.
The fact queries take the `$id` parameter, which may be `None` (Python)
since resolution rows can carry a null `id`. -/
structure GraphStore where
  runExact : String → Except Unit (List CropRow)
  runAlias : String → Except Unit (List CropRow)
  runFt : String → Except Unit (List CropRow)
  runContains : String → Except Unit (List CropRow)
  runSeasons : Option String → Except Unit (List SeasonRow)
  runLocations : Option String → ℕ → Except Unit (List LocRow)
  runClimate : Option String → Except Unit (List ClimateRow)
  runDiseases : Option String → Except Unit (List DiseaseRow)

/-- `_MANUAL_ALIASES` (Python dict, iterated in insertion order). -/
def MANUAL_ALIASES : List (String × List String) :=
  [("আমন", ["Aman"]), ("আউশ", ["Aus Rice"]), ("বোরো", ["Boro"])]

/-- The zero-width/format characters removed by `_normalize_bn`'s regex
`[​-‍⁠﻿]`. -/
def isZeroWidth (c : Char) : Bool :=
  (0x200B ≤ c.val.toNat && c.val.toNat ≤ 0x200D) ||
    c.val.toNat = 0x2060 || c.val.toNat = 0xFEFF

/-- `_normalize_bn`: empty stays empty; otherwise NFC-normalize, drop
zero-width characters, strip.  Unicode NFC is modelled as the identity
(inputs are taken to be NFC-composed, which holds for every string literal in
the repository). -/
def normalize_bn (s : String) : String :=
  if s = "" then ""
  else trimStr ⟨s.data.filter (fun c => !isZeroWidth c)⟩

/-- `_BN_DIGITS` transliteration table. -/
def BN_DIGITS : Char → Char
  | '0' => '০' | '1' => '১' | '2' => '২' | '3' => '৩' | '4' => '৪'
  | '5' => '৫' | '6' => '৬' | '7' => '৭' | '8' => '৮' | '9' => '৯'
  | c => c

/-- `_bn_num` on a present numeric value.  Graph numerics are modelled as `ℤ`
(`f"{x}"` is then the plain decimal representation; the float-repr
trailing-zero-stripping branch concerns floating point and is not modelled).
The `None ↦ ""` case never arises: every call site guards `is not None`. -/
def bn_num (x : ℤ) : String := ⟨(toString x).data.map BN_DIGITS⟩

def SEASON_MAP : List (String × String) :=
  [("Kharif 1", "খরিফ-১"), ("Kharif1", "খরিফ-১"),
   ("Kharif 2", "খরিফ-২"), ("Kharif2", "খরিফ-২"),
   ("Rabi", "রবি"), ("Aus", "আউশ"), ("Aman", "আমন"), ("Boro", "বোরো")]

/-- `_bn_season`: localization through `_SEASON_MAP`, unmapped names pass
through, falsy input gives `""`. -/
def bn_season (s : String) : String :=
  if s = "" then "" else (SEASON_MAP.lookup s).getD s

/-- The `for key, targets in _MANUAL_ALIASES.items()` fallback loop at the end
of `resolve_crop`.  The `cy_contains` re-query is *not* inside a
`try/except`, so a store failure propagates. -/
def manualLoop (g : GraphStore) (q : String) :
    List (String × List String) → Except Unit (Option CropRow)
  | [] => .ok none
  | (key, targets) :: rest =>
      if strContains q (normalize_bn key) then
        match g.runContains (targets.headD "") with
        | .error e => .error e
        | .ok hit =>
            match hit.head? with
            | some r => .ok (some r)
            | none => manualLoop g q rest
      else manualLoop g q rest

/-- `resolve_crop(q)`.  Of the five stages only the alias query is wrapped in
`try/except`; failures of the exact, full-text and contains queries
propagate. -/
def resolve_crop (g : GraphStore) (q0 : String) : Except Unit (Option CropRow) :=
  let q := normalize_bn q0
  match g.runExact q with
  | .error e => .error e
  | .ok rows =>
  match rows.head? with
  | some r => .ok (some r)
  | none =>
  match (match g.runAlias q with
         | .ok rows2 => rows2.head?
         | .error _ => none) with
  | some r => .ok (some r)
  | none =>
  match g.runFt q with
  | .error e => .error e
  | .ok rows3 =>
  match rows3.head? with
  | some r => .ok (some r)
  | none =>
  match g.runContains q with
  | .error e => .error e
  | .ok rows4 =>
  match rows4.head? with
  | some r => .ok (some r)
  | none => manualLoop g q MANUAL_ALIASES

def crop_seasons (g : GraphStore) (id : Option String) :
    Except Unit (List SeasonRow) := g.runSeasons id

def crop_locations (g : GraphStore) (id : Option String) (limit : ℕ) :
    Except Unit (List LocRow) := g.runLocations id limit

/-- `crop_climate`: `rows[0] if rows else None`. -/
def crop_climate (g : GraphStore) (id : Option String) :
    Except Unit (Option ClimateRow) :=
  match g.runClimate id with
  | .error e => .error e
  | .ok rows => .ok rows.head?

/-- `crop_diseases`: the only fact query wrapped in `try/except` — a store
failure degrades to `[]`. -/
def crop_diseases (g : GraphStore) (id : Option String) : List DiseaseRow :=
  match g.runDiseases id with
  | .ok rows => rows
  | .error _ => []

/-! ### Bullet rendering (`graph_answer_for_crop`, lines 163–189) -/

/-- Season bullet: names of truthy-named seasons, localized, `" / "`-joined. -/
def season_bullet (seasons : List SeasonRow) : List String :=
  if seasons.isEmpty then []
  else
    let names := (seasons.filter (fun s => s.season_name.getD "" ≠ "")).map
      (fun s => bn_season (s.season_name.getD ""))
    if names.isEmpty then [] else ["উপযোগী মৌসুম: " ++ String.intercalate " / " names]

/-- Temperature bullet: emitted only when min or max is present; an absent
bound renders as the placeholder dash. -/
def temp_bullet (climate : Option ClimateRow) : List String :=
  match climate with
  | none => []
  | some c =>
      if c.min_temp_c.isSome || c.max_temp_c.isSome then
        let lo := match c.min_temp_c with | some v => bn_num v | none => "—"
        let hi := match c.max_temp_c with | some v => bn_num v | none => "—"
        ["তাপমাত্রা: " ++ lo ++ "–" ++ hi ++ "°C"]
      else []

/-- Relative-humidity bullet, same absent-bound policy. -/
def humidity_bullet (climate : Option ClimateRow) : List String :=
  match climate with
  | none => []
  | some c =>
      if c.min_rh.isSome || c.max_rh.isSome then
        let loh := match c.min_rh with | some v => bn_num v | none => "—"
        let hih := match c.max_rh with | some v => bn_num v | none => "—"
        ["আপেক্ষিক আর্দ্রতা: " ++ loh ++ "%–" ++ hih ++ "%"]
      else []

/-- Per-item display name: `d.get("name_bn") or d.get("name_en","")`. -/
def disease_display (d : DiseaseRow) : String :=
  if d.name_bn.getD "" ≠ "" then d.name_bn.getD "" else d.name_en.getD ""

/-- Disease bullet: emitted whenever the disease list is non-empty. -/
def disease_bullet (diseases : List DiseaseRow) : List String :=
  if diseases.isEmpty then []
  else ["রোগ: " ++ String.intercalate " / "
    (((diseases.filter (fun d => d.name_bn.getD "" ≠ "" || d.name_en.getD "" ≠ "")).map
      disease_display))]

/-- `f"{name} ({season})".strip()` for one location row. -/
def loc_item (r : LocRow) : String :=
  trimStr (r.location_name.getD "" ++ " (" ++ bn_season (r.season.getD "") ++ ")")

/-- Location bullet: at most the first 5 rows are shown, each annotated with
its localized season label.  `top.strip(", ")` guards the append. -/
def loc_bullet (locs : List LocRow) : List String :=
  if locs.isEmpty then []
  else
    let top := String.intercalate ", "
      (((locs.take 5).filter (fun r => r.location_name.getD "" ≠ "")).map loc_item)
    if trimChars (fun c => c == ',' || c == ' ') top ≠ "" then
      ["চাষের জেলা (উদাহরণ): " ++ top]
    else []

/-- The `bullets` list built by `graph_answer_for_crop`, in source order. -/
def render_bullets (seasons : List SeasonRow) (locs : List LocRow)
    (climate : Option ClimateRow) (diseases : List DiseaseRow) : List String :=
  season_bullet seasons ++ temp_bullet climate ++ humidity_bullet climate ++
    disease_bullet diseases ++ loc_bullet locs

/-- The `facts` dictionary of a successful `graph_answer_for_crop`. -/
structure Facts where
  seasons : List SeasonRow
  locations : List LocRow
  climate : Option ClimateRow
  diseases : List DiseaseRow
deriving Repr, DecidableEq

/-- The result dictionary of `graph_answer_for_crop` (both shapes). -/
structure GraphAnswer where
  ok : Bool
  reason : Option String := none
  query : Option String := none
  mode : Option String := none
  crop : Option CropRow := none
  facts : Option Facts := none
  bullets_bn : List String := []
  sources : List String := []
deriving Repr, DecidableEq

def graph_answer_for_crop (g : GraphStore) (text : String) :
    Except Unit GraphAnswer :=
  match resolve_crop g text with
  | .error e => .error e
  | .ok none => .ok { ok := false, reason := some "crop_not_found", query := some text }
  | .ok (some crop) =>
  match crop_seasons g crop.id with
  | .error e => .error e
  | .ok seasons =>
  match crop_locations g crop.id 10 with
  | .error e => .error e
  | .ok locs =>
  match crop_climate g crop.id with
  | .error e => .error e
  | .ok climate =>
  let diseases := crop_diseases g crop.id
  .ok { ok := true, mode := some "GraphRAG", crop := some crop,
        facts := some ⟨seasons, locs, climate, diseases⟩,
        bullets_bn := render_bullets seasons locs climate diseases,
        sources := ["neo4j:Crop/Season/Location/Disease"] }

/-! ### Concrete graph semantics

A `Graph` is an explicit property-graph state; the functions below give the
semantics of each Cypher query of the source over it, so the abstract
`GraphStore` can be instantiated with `storeOfGraph`.  The full-text index
(`db.index.fulltext.queryNodes`, Lucene scoring) is store-defined and stays an
abstract, score-ordered function. -/

structure Crop where
  id : Option String
  name_bn : Option String
  name_en : Option String
  slug : Option String
  min_temp_c : Option ℤ
  max_temp_c : Option ℤ
  min_rh : Option ℤ
  max_rh : Option ℤ
deriving Repr, DecidableEq, Inhabited

/-- An `(a:Alias)-[:ALIAS_OF]->(c:Crop)` pair. -/
structure AliasNode where
  name : Option String
  crop : Crop
deriving Repr, DecidableEq

/-- A `(c:Crop)-[r:SUITABLE_IN]->(s:Season)` edge with its endpoints' data. -/
structure SuitEdge where
  cropId : Option String
  season_id : Option String
  season_name : Option String
deriving Repr, DecidableEq

/-- A `(c:Crop)-[r:CULTIVATED_IN]->(l:Location)` edge with its data. -/
structure CultEdge where
  cropId : Option String
  location_id : Option String
  location_name : Option String
  season : Option String
  transplant : Option String
  harvest : Option String
  production : Option ℤ
  avg_temp_c : Option ℤ
  avg_humidity : Option ℤ
deriving Repr, DecidableEq

/-- A `(c:Crop)-[:SUFFER_FROM]->(d:Disease)` edge with the disease's data. -/
structure SufferEdge where
  cropId : Option String
  disease_id : Option String
  name_bn : Option String
  name_en : Option String
  notes : Option String
deriving Repr, DecidableEq

structure Graph where
  crops : List Crop
  aliases : List AliasNode
  ft : String → List Crop
  suitable : List SuitEdge
  cultivated : List CultEdge
  suffers : List SufferEdge

def Crop.row (c : Crop) : CropRow := ⟨c.id, c.name_bn, c.name_en, c.slug⟩

/-- `toLower(coalesce(f, '')) = toLower($q)`. -/
def lowEq (f : Option String) (q : String) : Bool :=
  lowerStr (f.getD "") == lowerStr q

/-- `toLower(coalesce(f, '')) CONTAINS toLower($q)`. -/
def lowContainsQ (f : Option String) (q : String) : Bool :=
  strContains (lowerStr (f.getD "")) (lowerStr q)

/-- `cy_exact` over a `Graph` (`LIMIT 1`). -/
def exactList (G : Graph) (q : String) : List CropRow :=
  ((G.crops.filter (fun c =>
      lowEq c.id q || lowEq c.name_bn q || lowEq c.name_en q ||
      (c.slug.isSome && lowEq c.slug q))).map Crop.row).take 1

/-- `cy_alias` over a `Graph` (`LIMIT 1`). -/
def aliasList (G : Graph) (q : String) : List CropRow :=
  ((G.aliases.filter (fun a => lowEq a.name q)).map (fun a => a.crop.row)).take 1

/-- `cy_ft` over a `Graph`: the store-defined, score-ordered full-text result
(`ORDER BY score DESC LIMIT 1`). -/
def ftList (G : Graph) (q : String) : List CropRow :=
  ((G.ft q).map Crop.row).take 1

/-- `cy_contains` over a `Graph` (`LIMIT 1`). -/
def containsList (G : Graph) (q : String) : List CropRow :=
  ((G.crops.filter (fun c =>
      lowContainsQ c.name_bn q || lowContainsQ c.name_en q ||
      (c.slug.isSome && lowContainsQ c.slug q))).map Crop.row).take 1

/-- `coalesce(r.production, -1)`: the `ORDER BY … DESC` sort key of
`crop_locations`. -/
def locKey (r : LocRow) : ℤ := r.production.getD (-1)

/-- Descending order on the production sort key. -/
def locDesc (a b : LocRow) : Prop := locKey b ≤ locKey a

instance : DecidableRel locDesc := fun a b => Int.decLe (locKey b) (locKey a)

instance : IsTotal LocRow locDesc :=
  ⟨fun a b => (le_total (locKey b) (locKey a)).elim Or.inl Or.inr⟩

instance : IsTrans LocRow locDesc :=
  ⟨fun _ _ _ hab hbc => le_trans hbc hab⟩

def CultEdge.row (e : CultEdge) : LocRow :=
  ⟨e.location_id, e.location_name, e.season, e.transplant, e.harvest,
   e.production, e.avg_temp_c, e.avg_humidity⟩

/-- The `crop_locations` query over a `Graph`: edges of the crop, sorted
descending by `coalesce(production, -1)` (tie order is store-defined; a stable
sort is one admissible choice), truncated to `LIMIT $limit`. -/
def locationsList (G : Graph) (i : String) (limit : ℕ) : List LocRow :=
  (List.insertionSort locDesc
    ((G.cultivated.filter (fun e => e.cropId == some i)).map CultEdge.row)).take limit

def SuitEdge.row (e : SuitEdge) : SeasonRow := ⟨e.season_id, e.season_name⟩

/-- The `crop_seasons` query over a `Graph` (`ORDER BY s.name_bn`; the order
is irrelevant to every property below, a stable sort is one admissible
store order). -/
def seasonsList (G : Graph) (i : String) : List SeasonRow :=
  List.insertionSort (fun a b => a.season_name.getD "" ≤ b.season_name.getD "")
    ((G.suitable.filter (fun e => e.cropId == some i)).map SuitEdge.row)

def SufferEdge.row (e : SufferEdge) : DiseaseRow :=
  ⟨e.disease_id, e.name_bn, e.name_en, e.notes⟩

/-- The `crop_diseases` query over a `Graph` (`ORDER BY d.name_bn`). -/
def diseasesList (G : Graph) (i : String) : List DiseaseRow :=
  List.insertionSort (fun a b => a.name_bn.getD "" ≤ b.name_bn.getD "")
    ((G.suffers.filter (fun e => e.cropId == some i)).map SufferEdge.row)

/-- The `crop_climate` query over a `Graph`: property match `{id:$id}` (a null
parameter or property never matches). -/
def climateList (G : Graph) (i : String) : List ClimateRow :=
  (G.crops.filter (fun c => c.id == some i)).map
    (fun c => ⟨c.min_temp_c, c.max_temp_c, c.min_rh, c.max_rh⟩)

/-- A live store backed by a `Graph`: every query succeeds with the semantics
above; a `None` `$id` parameter matches nothing. -/
def storeOfGraph (G : Graph) : GraphStore where
  runExact := fun q => .ok (exactList G q)
  runAlias := fun q => .ok (aliasList G q)
  runFt := fun q => .ok (ftList G q)
  runContains := fun q => .ok (containsList G q)
  runSeasons := fun i => .ok (match i with | none => [] | some i => seasonsList G i)
  runLocations := fun i limit =>
    .ok (match i with | none => [] | some i => locationsList G i limit)
  runClimate := fun i => .ok (match i with | none => [] | some i => climateList G i)
  runDiseases := fun i => .ok (match i with | none => [] | some i => diseasesList G i)

/-! ### The resolution tiers as independent strategies (for the tier-order
property) -/

def tier_exact (G : Graph) (q : String) : Option CropRow := (exactList G q).head?

def tier_alias (G : Graph) (q : String) : Option CropRow := (aliasList G q).head?

def tier_fulltext (G : Graph) (q : String) : Option CropRow := (ftList G q).head?

def tier_contains (G : Graph) (q : String) : Option CropRow := (containsList G q).head?

def tier_manualAux (G : Graph) (q : String) :
    List (String × List String) → Option CropRow
  | [] => none
  | (key, targets) :: rest =>
      if strContains q (normalize_bn key) then
        match (containsList G (targets.headD "")).head? with
        | some r => some r
        | none => tier_manualAux G q rest
      else tier_manualAux G q rest

def tier_manual (G : Graph) (q : String) : Option CropRow :=
  tier_manualAux G q MANUAL_ALIASES

/-- The tier combinator: try an ordered list of resolution strategies'
results in sequence, returning the first hit. -/
def firstHit : List (Option CropRow) → Option CropRow
  | [] => none
  | some r :: _ => some r
  | none :: rest => firstHit rest

/-! ## Vector store, searcher and router: the rest of
`rag/retriever_vector.py` and `rag/router.py` -/

/-- The pgvector collaborator: `embed` is the sentence-transformer (a pure
external function of the text), `conn` tells whether `_conn()` obtains a
connection, and `knnRows` is the SQL nearest-neighbour query (its `execute`
may raise). -/
structure VectorStore where
  embed : String → List ℚ
  conn : Bool
  knnRows : List ℚ → ℕ → Option String → Option String → Except Unit (List Hit)

/-- `embed_query(q)`: encode with the asymmetric `"query: "` instruction
prefix. -/
def embed_query (v : VectorStore) (q : String) : List ℚ :=
  v.embed ("query: " ++ q)

/-- `fetch_knn`: a missing connection degrades to `[]`; a failure of the SQL
execution afterwards propagates. -/
def fetch_knn (v : VectorStore) (qvec : List ℚ) (fetch_k : ℕ)
    (source language : Option String) : Except Unit (List Hit) :=
  if v.conn then v.knnRows qvec fetch_k source language else .ok []

/-- `search(query, k, fetch_k, source, language, use_mmr, lambda_mult)`.
The `TypeError` raised by `hits[best_j]` when `mmr_rerank` finds no candidate
above the sentinel surfaces as `.error ()`. -/
def search (v : VectorStore) (query : String) (k fetch_k : ℕ)
    (source language : Option String) (use_mmr : Bool) (lambda_mult : ℚ) :
    Except Unit (List Hit) :=
  let qvec := embed_query v query
  match fetch_knn v qvec fetch_k source language with
  | .error e => .error e
  | .ok raw =>
      if use_mmr then
        match mmr_rerank qvec raw lambda_mult k with
        | some out => .ok out
        | none => .error ()
      else .ok (raw.take k)

/-- The text-generation collaborator (`gen_from_passages`), abstract:
question, user prompt and system prompt to generated text; may fail. -/
def GenFn : Type := String → String → String → Except Unit String

/-- The passage dictionaries the router builds from vector hits. -/
structure Passage where
  id : String
  text : String
  source : String
deriving Repr, DecidableEq, Inhabited

/-- Modelled from the spec: `rag/prompts.py` is not under `src/` (only its
caller `rag/router.py` is).  `VEC_USER` is a fixed template combining the
question and the numbered passage block, and `VEC_SYS` a fixed system
instruction; their exact contents do not matter to any property below. -/
def VEC_USER_format (question passages : String) : String :=
  "প্রশ্ন: " ++ question ++ "\n\nপ্যাসেজ:\n" ++ passages

/-- Modelled from the spec: the fixed system instruction of `rag/prompts.py`. -/
def VEC_SYS : String := "উত্তর সংক্ষেপে বাংলায় দিন, শুধুমাত্র প্যাসেজের তথ্য ব্যবহার করে।"

/-- `_format_vector_context`. -/
def format_vector_context (question : String) (passages : List Passage) : String :=
  if passages.isEmpty then ""
  else
    let lines := (List.enumFrom 1 passages).map (fun ip =>
      "[" ++ toString ip.1 ++ "] " ++ ip.2.text ++ "\n(Source: " ++ ip.2.source ++ ")")
    VEC_USER_format question (String.intercalate "\n\n" lines)

/-- The four keyword tables of `_detect_intent`. -/
def DISEASE_KW : List String :=
  ["রোগ", "পোকা", "কীট", "disease", "pest", "blight", "blast", "bacterial", "fungal"]

def CLIMATE_KW : List String :=
  ["জলবায়ু", "তাপমাত্রা", "আর্দ্রতা", "climate", "temperature", "humidity"]

def SEASON_KW : List String :=
  ["মৌসুম", "রোপণ", "রোপন", "কাটা", "transplant", "harvest", "season"]

def FERT_KW : List String := ["সার", "fertilizer", "npk", "ডোজ", "মাত্রা"]

/-- `has(xs)`: `any(x in ql for x in xs)`. -/
def kwHas (ql : String) (xs : List String) : Bool :=
  xs.any (fun x => strContains ql x)

/-- `_detect_intent`: first matching keyword set wins, in the fixed order
disease → climate → season → fertilizer. -/
def detect_intent (q : String) : Option String :=
  let ql := lowerStr q
  if kwHas ql DISEASE_KW then some "disease"
  else if kwHas ql CLIMATE_KW then some "climate"
  else if kwHas ql SEASON_KW then some "season"
  else if kwHas ql FERT_KW then some "fertilizer"
  else none

/-- `_as_bullets`. -/
def as_bullets (bn_lines : List String) : String :=
  String.intercalate "\n"
    ((bn_lines.filter (fun b => b ≠ "" && trimStr b ≠ "")).map (fun b => "• " ++ b))

/-- The per-intent augmentation table of `answer` (`.get(intent or "", "")`). -/
def augFor (intent : Option String) : String :=
  match intent with
  | some "disease" => " রোগ পোকা কীট disease pest"
  | some "climate" => " জলবায়ু তাপমাত্রা আর্দ্রতা climate temperature humidity"
  | some "season" => " মৌসুম season transplant harvest কাটা রোপণ"
  | some "fertilizer" => " সার fertilizer NPK ডোজ মাত্রা"
  | _ => ""

/-- The fixed apology string of `answer`. -/
def APOLOGY_BN : String := "মাফ করবেন, আমার কাছে সেই তথ্য নেই।"

/-- `from rag.retriever_graph import graph_diseases_for_crop` raises
`ImportError` — `retriever_graph` defines no such symbol — so the router binds
the name to `None`. -/
def graph_diseases_for_crop : Option (String → Except Unit GraphAnswer) := none

/-- Stage 2 of `answer`: the vector fallback (lines 72–91). -/
def vector_fallback (v : VectorStore) (gen : GenFn) (intent : Option String)
    (question : String) (k : ℕ) : Except Unit String :=
  let q2 := trimStr (question ++ " " ++ augFor intent)
  match search v q2 k (max 32 (k * 8)) none (some "bn") true (7/10) with
  | .error e => .error e
  | .ok hits =>
      let passages := hits.map (fun h => Passage.mk h.chunk_id h.text h.source)
      if passages.isEmpty then .ok APOLOGY_BN
      else gen question (format_vector_context question passages) VEC_SYS

/-- Stage 1(b) of `answer`: the climate/season overview via
`graph_answer_for_crop`, falling through to the vector stage. -/
def answer_graph_b (g : GraphStore) (v : VectorStore) (gen : GenFn)
    (intent : Option String) (question : String) (k : ℕ) : Except Unit String :=
  match graph_answer_for_crop g question with
  | .error e => .error e
  | .ok res =>
      if res.ok && !res.bullets_bn.isEmpty then .ok (as_bullets res.bullets_bn)
      else vector_fallback v gen intent question k

/-- `answer(question, k)`: the router entry point. -/
def answer (g : GraphStore) (v : VectorStore) (gen : GenFn)
    (question : String) (k : ℕ) : Except Unit String :=
  let intent := detect_intent question
  match resolve_crop g question with
  | .error e => .error e
  | .ok none => vector_fallback v gen intent question k
  | .ok (some _) =>
      if intent = some "disease" then
        match graph_diseases_for_crop with
        | some gdfc =>
            match gdfc question with
            | .error e => .error e
            | .ok res =>
                if res.ok && !res.bullets_bn.isEmpty then .ok (as_bullets res.bullets_bn)
                else answer_graph_b g v gen intent question k
        | none => answer_graph_b g v gen intent question k
      else answer_graph_b g v gen intent question k

/-- The comparison router for the refinement claim: `answer` with the
disease-specific branch removed. -/
def answer_without_disease_branch (g : GraphStore) (v : VectorStore)
    (gen : GenFn) (question : String) (k : ℕ) : Except Unit String :=
  let intent := detect_intent question
  match resolve_crop g question with
  | .error e => .error e
  | .ok none => vector_fallback v gen intent question k
  | .ok (some _) => answer_graph_b g v gen intent question k

/-! ### Concrete fixtures used by counterexamples and witnesses -/

/-- The empty graph: every query answers and nothing matches. -/
def emptyGraph : Graph :=
  { crops := [], aliases := [], ft := fun _ => [], suitable := [],
    cultivated := [], suffers := [] }

/-- A healthy graph store with no data. -/
def emptyStore : GraphStore := storeOfGraph emptyGraph

/-- A graph store whose full-text index query raises (e.g. the `cropFulltext`
index does not exist) while every other query answers with no match. -/
def ftFailStore : GraphStore :=
  { emptyStore with runFt := fun _ => .error () }

/-- A vector store with no connection (`_conn()` returned `None`). -/
def noConnVec : VectorStore :=
  { embed := fun _ => [], conn := false, knnRows := fun _ _ _ _ => .ok [] }

/-- A generation collaborator that always fails: any answer produced in its
presence was produced without invoking it. -/
def failGen : GenFn := fun _ _ _ => .error ()

/-- A hit carrying only text and similarity, as in the spec's MMR scenario. -/
def mkHit (t : String) (s : ℚ) : Hit := ⟨"", "", "", "", "", t, s⟩

/-- The spec's end-to-end MMR scenario candidates. -/
def mmrScenario : List Hit :=
  [mkHit "a b c" (9/10), mkHit "a b d" (17/20), mkHit "x y z" (1/2)]

/-- A `CULTIVATED_IN` edge with a negative production volume. -/
def negProdEdge : CultEdge :=
  ⟨some "c", some "l1", some "A", none, none, none, some (-5), none, none⟩

/-- A `CULTIVATED_IN` edge with a null production volume. -/
def nullProdEdge : CultEdge :=
  ⟨some "c", some "l2", some "B", none, none, none, none, none, none⟩

/-- A graph whose only crop has one negative-production and one
null-production location edge. -/
def negProdGraph : Graph := { emptyGraph with cultivated := [negProdEdge, nullProdEdge] }

/-! ### Bounds on the MMR score components -/

theorem jaccard_nonneg (a b : Finset String) : 0 ≤ jaccard a b := by
  simp only [jaccard]
  split <;> positivity

theorem jaccard_le_one (a b : Finset String) : jaccard a b ≤ 1 := by
  have hsub : (a ∩ b).card ≤ (a ∪ b).card :=
    Finset.card_le_card (Finset.inter_subset_union)
  simp only [jaccard]
  split
  · next h =>
      have h0 : (a ∩ b).card = 0 := by omega
      simp [h0]
  · next h =>
      rw [div_le_one (by exact_mod_cast Nat.pos_of_ne_zero h)]
      exact_mod_cast hsub

theorem foldl_max_le {c : ℚ} : ∀ (xs : List ℚ) (acc : ℚ), acc ≤ c →
    (∀ x ∈ xs, x ≤ c) → xs.foldl max acc ≤ c := by
  intro xs
  induction xs with
  | nil => intro acc hacc _; simpa using hacc
  | cons x xs ih =>
      intro acc hacc hxs
      simp only [List.foldl_cons]
      exact ih (max acc x) (max_le hacc (hxs x (by simp)))
        (fun y hy => hxs y (by simp [hy]))

theorem listMax0_le {c : ℚ} (hc : 0 ≤ c) (xs : List ℚ) (h : ∀ x ∈ xs, x ≤ c) :
    listMax0 xs ≤ c := by
  cases xs with
  | nil => simpa [listMax0] using hc
  | cons x xs =>
      simp only [listMax0]
      exact foldl_max_le xs x (h x (by simp)) (fun y hy => h y (by simp [hy]))

theorem redundancy_le_one (toks : List (Finset String)) (j : ℕ) (selIdx : List ℕ) :
    redundancy toks j selIdx ≤ 1 := by
  apply listMax0_le (by norm_num)
  intro x hx
  simp only [List.mem_map] at hx
  obtain ⟨si, _, rfl⟩ := hx
  exact jaccard_le_one _ _

/-- When the score of a candidate to the right of a `-1e9`-bounded accumulator
exceeds the accumulator's score (or a best index is already recorded), the
scan ends with `best_j ≠ None`. -/
theorem bestFold_isSome (selIdx : List ℕ) (lam : ℚ) (toks : List (Finset String)) :
    ∀ (l : List Hit) (j0 : ℕ) (acc : Option ℕ × ℚ),
      (acc.1.isSome = true ∨ ∃ i, ∃ hi : i < l.length, (j0 + i) ∉ selIdx ∧
        acc.2 < lam * (l.get ⟨i, hi⟩).cosine_sim
          - (1 - lam) * redundancy toks (j0 + i) selIdx) →
      (bestFold selIdx lam toks l j0 acc).1.isSome = true := by
  intro l
  induction l with
  | nil =>
      intro j0 acc h
      rcases h with h | ⟨i, hi, _⟩
      · simpa [bestFold] using h
      · exact absurd hi (by simp)
  | cons hd tl ih =>
      intro j0 acc h
      rw [bestFold]
      by_cases hmem : j0 ∈ selIdx
      · simp only [if_pos hmem]
        apply ih
        rcases h with h | ⟨i, hi, hnot, hlt⟩
        · exact Or.inl h
        · cases i with
          | zero => exact absurd hmem (by simpa using hnot)
          | succ i' =>
              refine Or.inr ⟨i', by simpa using hi, ?_, ?_⟩
              · have e : j0 + 1 + i' = j0 + (i' + 1) := by omega
                rw [e]; exact hnot
              · have e : j0 + 1 + i' = j0 + (i' + 1) := by omega
                rw [e]
                simpa using hlt
      · simp only [if_neg hmem]
        by_cases hsc : lam * hd.cosine_sim - (1 - lam) * redundancy toks j0 selIdx > acc.2
        · simp only [if_pos hsc]
          exact ih _ _ (Or.inl rfl)
        · simp only [if_neg hsc]
          apply ih
          rcases h with h | ⟨i, hi, hnot, hlt⟩
          · exact Or.inl h
          · cases i with
            | zero =>
                exfalso
                apply hsc
                simpa using hlt
            | succ i' =>
                refine Or.inr ⟨i', by simpa using hi, ?_, ?_⟩
                · have e : j0 + 1 + i' = j0 + (i' + 1) := by omega
                  rw [e]; exact hnot
                · have e : j0 + 1 + i' = j0 + (i' + 1) := by omega
                  rw [e]
                  simpa using hlt

/-- Fewer selected indices than candidates leaves an unselected index. -/
theorem exists_unselected (n : ℕ) (selIdx : List ℕ) (h : selIdx.length < n) :
    ∃ j, j < n ∧ j ∉ selIdx := by
  by_contra hall
  push_neg at hall
  have hsub : Finset.range n ⊆ selIdx.toFinset := by
    intro j hj
    simp only [Finset.mem_range] at hj
    simpa using hall j hj
  have := Finset.card_le_card hsub
  simp only [Finset.card_range] at this
  have := selIdx.toFinset_card_le
  omega

/-- Under `λ ∈ [0, 1]` and cosine similarities in `[-1, 1]`, every candidate's
MMR score is at least `-1 > -1e9`, so the scan always selects an index. -/
theorem bestCandidate_isSome (hits : List Hit) (toks : List (Finset String))
    (selIdx : List ℕ) (lam : ℚ) (hlam0 : 0 ≤ lam) (hlam1 : lam ≤ 1)
    (hb : ∀ h ∈ hits, -1 ≤ h.cosine_sim ∧ h.cosine_sim ≤ 1)
    (hlen : selIdx.length < hits.length) :
    (bestCandidate hits toks selIdx lam).isSome = true := by
  obtain ⟨j, hj, hnot⟩ := exists_unselected hits.length selIdx hlen
  apply bestFold_isSome
  refine Or.inr ⟨j, hj, by simpa using hnot, ?_⟩
  have hsim := hb _ (hits.get_mem j hj)
  have hred0 : redundancy toks (0 + j) selIdx ≤ 1 := redundancy_le_one _ _ _
  have h1 : lam * (-1) ≤ lam * (hits.get ⟨j, hj⟩).cosine_sim :=
    mul_le_mul_of_nonneg_left hsim.1 hlam0
  have h2 : (1 - lam) * redundancy toks (0 + j) selIdx ≤ (1 - lam) * 1 :=
    mul_le_mul_of_nonneg_left hred0 (by linarith)
  simp only [Nat.zero_add] at h1 h2 ⊢
  nlinarith

/-- The selection loop (with adequate fuel) terminates without the sentinel
crash and returns `max |selected| (min top_k |hits|)` items. -/
theorem mmrLoop_spec (hits : List Hit) (toks : List (Finset String)) (lam : ℚ)
    (top_k : ℕ) (hlam0 : 0 ≤ lam) (hlam1 : lam ≤ 1)
    (hb : ∀ h ∈ hits, -1 ≤ h.cosine_sim ∧ h.cosine_sim ≤ 1) :
    ∀ (fuel : ℕ) (selected : List Hit) (selIdx : List ℕ),
      selected.length = selIdx.length → top_k - selected.length ≤ fuel →
      ∃ out, mmrLoop hits toks lam top_k fuel selected selIdx = some out ∧
        out.length = max selected.length (min top_k hits.length) := by
  intro fuel
  induction fuel with
  | zero =>
      intro selected selIdx _ hfuel
      rw [mmrLoop.eq_def]
      have hcond : ¬ (selected.length < top_k ∧ selected.length < hits.length) := by
        omega
      rw [if_neg hcond]
      exact ⟨selected, rfl, by omega⟩
  | succ f ih =>
      intro selected selIdx hlen hfuel
      rw [mmrLoop.eq_def]
      by_cases hcond : selected.length < top_k ∧ selected.length < hits.length
      · rw [if_pos hcond]
        have hsome := bestCandidate_isSome hits toks selIdx lam hlam0 hlam1 hb
          (by omega)
        cases hbc : bestCandidate hits toks selIdx lam with
        | none => rw [hbc] at hsome; simp at hsome
        | some j =>
            obtain ⟨out, hout, hlenout⟩ := ih (selected ++ [hits.getD j default])
              (selIdx ++ [j]) (by simp [hlen]) (by simp; omega)
            refine ⟨out, ?_, ?_⟩
            · exact hout
            · rw [hlenout]
              simp only [List.length_append, List.length_cons, List.length_nil]
              omega
      · rw [if_neg hcond]
        exact ⟨selected, rfl, by omega⟩

/-- `mmr_rerank` on bounded similarities: total, returns `min top_k |hits|`
items, and is the identity when `|hits| ≤ top_k`. -/
theorem mmr_rerank_spec (qvec : List ℚ) (hits : List Hit) (lam : ℚ) (top_k : ℕ)
    (hk : 1 ≤ top_k) (hlam0 : 0 ≤ lam) (hlam1 : lam ≤ 1)
    (hb : ∀ h ∈ hits, -1 ≤ h.cosine_sim ∧ h.cosine_sim ≤ 1) :
    ∃ out, mmr_rerank qvec hits lam top_k = some out ∧
      out.length = min top_k hits.length ∧
      (hits.length ≤ top_k → out = hits) := by
  unfold mmr_rerank
  by_cases hle : hits.length ≤ top_k
  · rw [if_pos hle]
    exact ⟨hits, rfl, by omega, fun _ => rfl⟩
  · rw [if_neg hle]
    obtain ⟨out, hout, hlenout⟩ := mmrLoop_spec hits
      (hits.map (fun h => tokenSet h.text)) lam top_k hlam0 hlam1 hb top_k
      [hits.getD (argmaxIdx (hits.map (fun h => h.cosine_sim))) default]
      [argmaxIdx (hits.map (fun h => h.cosine_sim))] (by simp) (by simp)
    refine ⟨out, hout, ?_, fun h => absurd h hle⟩
    rw [hlenout]
    simp only [List.length_cons, List.length_nil]
    omega


/-! ## Claim theorems -/

/-- C1 (counterexample).  On the spec's scenario — candidates
`("a b c", 0.9), ("a b d", 0.85), ("x y z", 0.5)`, `k = 2`, `λ = 0.7` — the
reranker does *not* return candidate 1 followed by candidate 3. -/
theorem C1_spec_scenario_false :
    mmr_rerank [] mmrScenario (7/10) 2 ≠
      some [mkHit "a b c" (9/10), mkHit "x y z" (1/2)] := by
  decide

/-- C1 (amended).  On the spec's scenario the first selection is candidate 1
(highest similarity) but the second selection is candidate 2 `"a b d"`, not
candidate 3: its MMR score `0.7·0.85 − 0.3·(1/2) = 0.445` still exceeds
candidate 3's `0.7·0.5 − 0.3·0 = 0.35`, so the token-set Jaccard redundancy
penalty of 2/4 with candidate 1 does not flip the choice at `λ = 0.7`. -/
theorem C1_second_selection_is_candidate2 :
    mmr_rerank [] mmrScenario (7/10) 2 =
      some [mkHit "a b c" (9/10), mkHit "a b d" (17/20)] := by
  decide

/-- C3 (counterexample).  Without a bound on the similarity scores the claim
fails: on a 3-candidate list with two scores of `-2·10⁹` and `k = 2`, every
score in the second selection round is below the `-1e9` sentinel, `best_j`
stays `None`, `hits[best_j]` raises, and the reranker does not return
`min(k, 3) = 2` items. -/
theorem C3_sentinel_crash :
    mmr_rerank [] [mkHit "a" 0, mkHit "b" (-2000000000), mkHit "c" (-2000000000)]
      (7/10) 2 = none := by
  decide

/-- C3 (amended).  For every candidate list whose similarity scores lie in
`[-1, 1]` (as cosine similarities do — this keeps every achievable MMR score
above the `-1e9` sentinel), every `λ ∈ [0, 1]` and every `k ≥ 1`,
`mmr_rerank` returns exactly `min(k, |candidates|)` items, and whenever
`|candidates| ≤ k` it returns the candidate list unchanged in its original
order (that no-op short-circuit needs no similarity bound). -/
theorem C3_count_bounded_sims (qvec : List ℚ) (hits : List Hit) (lam : ℚ)
    (top_k : ℕ) (hk : 1 ≤ top_k) (hlam0 : 0 ≤ lam) (hlam1 : lam ≤ 1)
    (hb : ∀ h ∈ hits, -1 ≤ h.cosine_sim ∧ h.cosine_sim ≤ 1) :
    ∃ out, mmr_rerank qvec hits lam top_k = some out ∧
      out.length = min top_k hits.length ∧
      (hits.length ≤ top_k → out = hits) :=
  mmr_rerank_spec qvec hits lam top_k hk hlam0 hlam1 hb

theorem C3_count_bounded_sims_witness :
    (1 ≤ 2) ∧
    ∃ out, mmr_rerank [] mmrScenario (7/10) 2 = some out ∧
      out.length = min 2 mmrScenario.length ∧
      (mmrScenario.length ≤ 2 → out = mmrScenario) :=
  ⟨by norm_num,
   C3_count_bounded_sims [] mmrScenario (7/10) 2 (by norm_num) (by norm_num)
     (by norm_num) (by decide)⟩

/-- C10.  On well-formed input — similarities in `[-1, 1]`, `λ ∈ [0, 1]`,
`top_k ≥ 1` — `mmr_rerank` is total: the Jaccard computation returns `0`
whenever the token-set union is empty (the `or 1` replacement), and the
selection loop always finds an unselected index above the `-1e9` sentinel, so
the `hits[best_j]` indexing never fails. -/
theorem C10_mmr_total (qvec : List ℚ) (hits : List Hit) (lam : ℚ) (top_k : ℕ)
    (hk : 1 ≤ top_k) (hlam0 : 0 ≤ lam) (hlam1 : lam ≤ 1)
    (hb : ∀ h ∈ hits, -1 ≤ h.cosine_sim ∧ h.cosine_sim ≤ 1) :
    (∀ a b : Finset String, (a ∪ b).card = 0 → jaccard a b = 0) ∧
      ∃ out, mmr_rerank qvec hits lam top_k = some out := by
  constructor
  · intro a b hab
    have h0 : (a ∩ b).card = 0 := by
      have := Finset.card_le_card (Finset.inter_subset_union (s := a) (t := b))
      omega
    simp [jaccard, hab, h0]
  · obtain ⟨out, hout, _⟩ := mmr_rerank_spec qvec hits lam top_k hk hlam0 hlam1 hb
    exact ⟨out, hout⟩

theorem C10_mmr_total_witness :
    ((∀ a b : Finset String, (a ∪ b).card = 0 → jaccard a b = 0) ∧
      ∃ out, mmr_rerank [] mmrScenario (7/10) 3 = some out) :=
  C10_mmr_total [] mmrScenario (7/10) 3 (by norm_num) (by norm_num) (by norm_num)
    (by decide)

/-- C5.  The intent classifier is total — every question maps to exactly one
of `disease`, `climate`, `season`, `fertilizer`, `none` — and each outcome is
characterized by case-insensitive keyword containment in the fixed priority
order disease → climate → season → fertilizer (the first matching set wins);
no match yields `none`. -/
theorem C5_intent_total_priority (q : String) :
    (detect_intent q = some "disease" ∨ detect_intent q = some "climate" ∨
     detect_intent q = some "season" ∨ detect_intent q = some "fertilizer" ∨
     detect_intent q = none) ∧
    (detect_intent q = some "disease" ↔ kwHas (lowerStr q) DISEASE_KW = true) ∧
    (detect_intent q = some "climate" ↔
      (kwHas (lowerStr q) DISEASE_KW = false ∧ kwHas (lowerStr q) CLIMATE_KW = true)) ∧
    (detect_intent q = some "season" ↔
      (kwHas (lowerStr q) DISEASE_KW = false ∧ kwHas (lowerStr q) CLIMATE_KW = false ∧
       kwHas (lowerStr q) SEASON_KW = true)) ∧
    (detect_intent q = some "fertilizer" ↔
      (kwHas (lowerStr q) DISEASE_KW = false ∧ kwHas (lowerStr q) CLIMATE_KW = false ∧
       kwHas (lowerStr q) SEASON_KW = false ∧ kwHas (lowerStr q) FERT_KW = true)) ∧
    (detect_intent q = none ↔
      (kwHas (lowerStr q) DISEASE_KW = false ∧ kwHas (lowerStr q) CLIMATE_KW = false ∧
       kwHas (lowerStr q) SEASON_KW = false ∧ kwHas (lowerStr q) FERT_KW = false)) := by
  unfold detect_intent
  rcases hD : kwHas (lowerStr q) DISEASE_KW <;>
    rcases hC : kwHas (lowerStr q) CLIMATE_KW <;>
      rcases hS : kwHas (lowerStr q) SEASON_KW <;>
        rcases hF : kwHas (lowerStr q) FERT_KW <;>
          simp [hD, hC, hS, hF]

/-- C9.  The router's disease-specific graph branch is unreachable: the
optional import binds `graph_diseases_for_crop` to `None`, so `answer` agrees
with the router with that branch removed, on every store, generator, question
and `k` — disease-intent questions for a resolved crop flow to the general
fact bundle or the vector fallback. -/
theorem C9_disease_branch_dead (g : GraphStore) (v : VectorStore) (gen : GenFn)
    (question : String) (k : ℕ) :
    answer g v gen question k = answer_without_disease_branch g v gen question k := by
  simp only [answer, answer_without_disease_branch, graph_diseases_for_crop]
  cases resolve_crop g question with
  | error e => rfl
  | ok o =>
      cases o with
      | none => rfl
      | some c => exact ite_self _

/-- C2 (counterexample).  Not every store call is caught at its call site: a
failing full-text index query (`cy_ft` is not wrapped in `try/except`)
propagates out of `resolve_crop` and out of `answer(question, k)` instead of
degrading to the substring tier / vector fallback. -/
theorem C2_unwrapped_ft_failure_propagates :
    answer ftFailStore noConnVec failGen "tomato" 5 = .error () := by
  rfl

/-- C2 (amended).  Only three collaborator call sites catch failures and treat
them as a miss/empty result: the alias-match query of `resolve_crop` (a
failing alias tier behaves exactly like an empty one), the disease fact query
(`crop_diseases` degrades to `[]`), and the vector-store connection attempt
(`fetch_knn` returns no passages when `_conn()` fails).  The exact, full-text
and substring resolution queries, the season/location/climate fact queries,
and the SQL execution on a live connection are not wrapped, and their
failures propagate (see the counterexample). -/
theorem C2_wrapped_sites_degrade (g : GraphStore) (v : VectorStore)
    (q : String) (idOpt : Option String) (qvec : List ℚ) (fetch_k : ℕ)
    (source language : Option String) :
    resolve_crop { g with runAlias := fun _ => .error () } q =
      resolve_crop { g with runAlias := fun _ => .ok [] } q ∧
    crop_diseases { g with runDiseases := fun _ => .error () } idOpt = [] ∧
    crop_diseases { g with runDiseases := fun _ => .ok [] } idOpt = [] ∧
    fetch_knn { v with conn := false } qvec fetch_k source language = .ok [] :=
  ⟨rfl, rfl, rfl, rfl⟩

/-- C6.  Whenever the graph paths produce no bullets — the crop is unresolved,
or `graph_answer_for_crop` answers with `ok = False` or an empty bullet
list — and the subsequent (intent-augmented) vector search returns zero
passages, `answer(question, k)` returns exactly the fixed apology string, for
*every* generation collaborator `gen` (in particular a failing one), so the
generator is never invoked. -/
theorem C6_apology_on_empty (g : GraphStore) (v : VectorStore) (gen : GenFn)
    (question : String) (k : ℕ) (cropOpt : Option CropRow)
    (hres : resolve_crop g question = .ok cropOpt)
    (hga : cropOpt = none ∨ ∃ ga, graph_answer_for_crop g question = Except.ok ga ∧
      (ga.ok = false ∨ ga.bullets_bn = []))
    (hvec : search v (trimStr (question ++ " " ++ augFor (detect_intent question)))
        k (max 32 (k * 8)) none (some "bn") true (7/10) = .ok []) :
    answer g v gen question k = .ok APOLOGY_BN := by
  have hvf : vector_fallback v gen (detect_intent question) question k =
      .ok APOLOGY_BN := by
    simp only [vector_fallback]
    rw [hvec]
    rfl
  have hgb : ∀ ga, graph_answer_for_crop g question = Except.ok ga →
      (ga.ok = false ∨ ga.bullets_bn = []) →
      answer_graph_b g v gen (detect_intent question) question k = .ok APOLOGY_BN := by
    intro ga hok hbad
    simp only [answer_graph_b]
    rw [hok]
    have hcond : (ga.ok && !ga.bullets_bn.isEmpty) = false := by
      rcases hbad with h | h <;> simp [h]
    simpa [hcond] using hvf
  simp only [answer]
  rw [hres]
  cases cropOpt with
  | none => exact hvf
  | some c =>
      rcases hga with h | ⟨ga, hok, hbad⟩
      · exact absurd h (by simp)
      · have hgb' := hgb ga hok hbad
        dsimp only [graph_diseases_for_crop]
        rw [ite_self]
        exact hgb'

theorem C6_apology_on_empty_witness :
    answer emptyStore noConnVec failGen "hello" 5 = .ok APOLOGY_BN :=
  C6_apology_on_empty emptyStore noConnVec failGen "hello" 5 none rfl
    (Or.inl rfl) rfl

/-- C7.  The temperature bullet is emitted iff at least one of
`min_temp_c` / `max_temp_c` is present: no climate row (or a row with both
bounds null) yields no temperature bullet anywhere in the rendered bullets,
and a row with only `min_temp_c` renders the missing max bound as the
placeholder dash `—`. -/
theorem C7_temp_bullet_iff_dash (seasons : List SeasonRow) (locs : List LocRow)
    (climate : Option ClimateRow) (diseases : List DiseaseRow) :
    (temp_bullet climate ≠ [] ↔
      ∃ c, climate = some c ∧ (c.min_temp_c ≠ none ∨ c.max_temp_c ≠ none)) ∧
    (climate = none →
      render_bullets seasons locs climate diseases =
        season_bullet seasons ++ disease_bullet diseases ++ loc_bullet locs) ∧
    (∀ c m, climate = some c → c.min_temp_c = some m → c.max_temp_c = none →
      temp_bullet climate = ["তাপমাত্রা: " ++ bn_num m ++ "–" ++ "—" ++ "°C"]) := by
  refine ⟨?_, ?_, ?_⟩
  · cases climate with
    | none => simp [temp_bullet]
    | some c =>
        rcases hm : c.min_temp_c with _ | m <;> rcases hM : c.max_temp_c with _ | M <;>
          simp [temp_bullet, hm, hM]
  · intro h
    subst h
    simp [render_bullets, temp_bullet, humidity_bullet]
  · intro c m hc hmin hmax
    subst hc
    simp [temp_bullet, hmin, hmax]

theorem C7_temp_bullet_witness :
    temp_bullet (some ⟨some 20, none, none, none⟩) =
      ["তাপমাত্রা: " ++ bn_num 20 ++ "–" ++ "—" ++ "°C"] :=
  (C7_temp_bullet_iff_dash [] [] (some ⟨some 20, none, none, none⟩) []).2.2
    ⟨some 20, none, none, none⟩ 20 rfl rfl rfl

/-- C8 (counterexample).  Missing production does not sort last in general:
with one edge of production `-5` and one of null production, the null row
(coalesced to `-1`) sorts *before* the `-5` row. -/
theorem C8_negative_production_breaks_null_last :
    locationsList negProdGraph "c" 10 = [nullProdEdge.row, negProdEdge.row] ∧
    nullProdEdge.row.production = none ∧
    negProdEdge.row.production = some (-5) :=
  ⟨by decide, rfl, rfl⟩

/-- C8 (amended).  The aggregator's location query returns at most 10 rows,
ordered descending by the key `coalesce(production, -1)`; when all present
production volumes are nonnegative (production counts are), null-production
rows therefore sort last.  The rendered location bullet uses only the first 5
fetched rows, each annotated with its localized season label. -/
theorem C8_locations_sorted_top5 (G : Graph) (i : String)
    (hprod : ∀ e ∈ G.cultivated, ∀ p, e.production = some p → 0 ≤ p) :
    (locationsList G i 10).length ≤ 10 ∧
    (locationsList G i 10).Sorted locDesc ∧
    (∀ (j1 j2 : ℕ) (h1 : j1 < (locationsList G i 10).length)
        (h2 : j2 < (locationsList G i 10).length), j1 ≤ j2 →
        ((locationsList G i 10).get ⟨j1, h1⟩).production = none →
        ((locationsList G i 10).get ⟨j2, h2⟩).production = none) ∧
    (∀ locs : List LocRow, loc_bullet locs = loc_bullet (locs.take 5)) ∧
    loc_item ⟨some "dh", some "Dhaka", some "Kharif 1", none, none, some 100,
      none, none⟩ = "Dhaka (খরিফ-১)" := by
  have hsorted : (locationsList G i 10).Sorted locDesc :=
    List.Pairwise.sublist (List.take_sublist _ _)
      (List.sorted_insertionSort locDesc _)
  have hmem : ∀ r ∈ locationsList G i 10, ∀ p, r.production = some p → 0 ≤ p := by
    intro r hr p hp
    have hr1 : r ∈ List.insertionSort locDesc
        ((G.cultivated.filter (fun e => e.cropId == some i)).map CultEdge.row) :=
      List.take_subset _ _ hr
    have hr2 : r ∈ (G.cultivated.filter (fun e => e.cropId == some i)).map
        CultEdge.row := (List.perm_insertionSort locDesc _).mem_iff.mp hr1
    obtain ⟨e, he, rfl⟩ := List.mem_map.mp hr2
    exact hprod e (List.mem_filter.mp he).1 p hp
  refine ⟨?_, hsorted, ?_, ?_, by decide⟩
  · unfold locationsList
    rw [List.length_take]
    omega
  · intro j1 j2 h1 h2 hle hnull
    rcases Nat.lt_or_ge j2 j1 with hgt | hge
    · omega
    · rcases Nat.eq_or_lt_of_le hge with heq | hlt
      · subst heq
        exact hnull
      · rcases hp2 : ((locationsList G i 10).get ⟨j2, h2⟩).production with _ | p
        · rfl
        · exfalso
          have hrel := List.Sorted.rel_get_of_lt hsorted
            (show (⟨j1, h1⟩ : Fin _) < ⟨j2, h2⟩ from hlt)
          have hppos : 0 ≤ p := hmem _ (List.get_mem _ _ _) p hp2
          unfold locDesc locKey at hrel
          rw [hnull, hp2] at hrel
          simp at hrel
          omega
  · intro locs
    cases locs with
    | nil => rfl
    | cons a as => simp [loc_bullet, List.take_take]

theorem C8_locations_witness :
    (locationsList emptyGraph "x" 10).length ≤ 10 ∧
    (locationsList emptyGraph "x" 10).Sorted locDesc ∧
    (∀ (j1 j2 : ℕ) (h1 : j1 < (locationsList emptyGraph "x" 10).length)
        (h2 : j2 < (locationsList emptyGraph "x" 10).length), j1 ≤ j2 →
        ((locationsList emptyGraph "x" 10).get ⟨j1, h1⟩).production = none →
        ((locationsList emptyGraph "x" 10).get ⟨j2, h2⟩).production = none) ∧
    (∀ locs : List LocRow, loc_bullet locs = loc_bullet (locs.take 5)) ∧
    loc_item ⟨some "dh", some "Dhaka", some "Kharif 1", none, none, some 100,
      none, none⟩ = "Dhaka (খরিফ-১)" :=
  C8_locations_sorted_top5 emptyGraph "x"
    (by intro e he; simp [emptyGraph] at he)

/-- Over a live graph-backed store, the manual-alias loop of `resolve_crop`
computes the pure fifth tier. -/
theorem manualLoop_storeOfGraph (G : Graph) (q : String) :
    ∀ l, manualLoop (storeOfGraph G) q l = .ok (tier_manualAux G q l) := by
  intro l
  induction l with
  | nil => rfl
  | cons kt rest ih =>
      obtain ⟨key, targets⟩ := kt
      simp only [manualLoop, tier_manualAux]
      by_cases hc : strContains q (normalize_bn key)
      · simp only [if_pos hc, storeOfGraph]
        cases hh : (containsList G (targets.headD "")).head? with
        | some r => rfl
        | none => exact ih
      · simp only [if_neg hc]
        exact ih

/-- C4.  Over a live store, `resolve_crop` is exactly the first-hit
composition of the five tiers — exact match, alias match, full-text match,
substring match, manual-alias retry of the substring tier — applied to the
normalized query in that order (no score combination across tiers), and it
returns `NotFound` iff every one of the five tiers produces no match. -/
theorem C4_resolution_tier_order (G : Graph) (q0 : String) :
    resolve_crop (storeOfGraph G) q0 =
      .ok (firstHit [tier_exact G (normalize_bn q0), tier_alias G (normalize_bn q0),
        tier_fulltext G (normalize_bn q0), tier_contains G (normalize_bn q0),
        tier_manual G (normalize_bn q0)]) ∧
    (resolve_crop (storeOfGraph G) q0 = .ok none ↔
      (tier_exact G (normalize_bn q0) = none ∧ tier_alias G (normalize_bn q0) = none ∧
       tier_fulltext G (normalize_bn q0) = none ∧
       tier_contains G (normalize_bn q0) = none ∧
       tier_manual G (normalize_bn q0) = none)) := by
  have hchain : resolve_crop (storeOfGraph G) q0 =
      .ok (firstHit [tier_exact G (normalize_bn q0), tier_alias G (normalize_bn q0),
        tier_fulltext G (normalize_bn q0), tier_contains G (normalize_bn q0),
        tier_manual G (normalize_bn q0)]) := by
    simp only [resolve_crop, tier_exact, tier_alias, tier_fulltext, tier_contains,
      storeOfGraph]
    cases h1 : (exactList G (normalize_bn q0)).head? with
    | some r => simp [firstHit]
    | none =>
        cases h2 : (aliasList G (normalize_bn q0)).head? with
        | some r => simp [firstHit]
        | none =>
            cases h3 : (ftList G (normalize_bn q0)).head? with
            | some r => simp [firstHit]
            | none =>
                cases h4 : (containsList G (normalize_bn q0)).head? with
                | some r => simp [firstHit]
                | none =>
                    refine (manualLoop_storeOfGraph G (normalize_bn q0)
                      MANUAL_ALIASES).trans ?_
                    rw [← tier_manual]
                    cases h5 : tier_manual G (normalize_bn q0) <;> simp [firstHit]
  refine ⟨hchain, ?_⟩
  rw [hchain]
  rcases h1 : tier_exact G (normalize_bn q0) with _ | r1 <;>
    rcases h2 : tier_alias G (normalize_bn q0) with _ | r2 <;>
      rcases h3 : tier_fulltext G (normalize_bn q0) with _ | r3 <;>
        rcases h4 : tier_contains G (normalize_bn q0) with _ | r4 <;>
          rcases h5 : tier_manual G (normalize_bn q0) with _ | r5 <;>
            simp [firstHit]

end Agrigpt
